import Mathlib

/-!
Shallow embedding of the rhubarb WebSocket implementation
(src/frame.rs, src/server.rs, src/client.rs).

Bytes are modelled as `Nat` values below 256; the Rust `u64` payload
length is a `Nat` (wrap-around is made explicit where the source relies
on fixed-width behaviour).
-/

/-- Models enum WebSocketOpCode from src/frame.rs. -/
inductive WebSocketOpCode where
  | Continuation
  | Text
  | Binary
  | Close
  | Ping
  | Pong
  | Reserved
deriving DecidableEq, Repr

/-- Models struct WebSocketFrame from src/frame.rs. -/
structure WebSocketFrame where
  fin : Bool
  masked : Bool
  opcode : WebSocketOpCode
  payload_len : Nat
  mask_key : Option (List Nat)
  data : List Nat
deriving DecidableEq, Repr

/-- Models WebSocketFrame::new_bin (src/frame.rs lines 25-50): note the
source computes `payload_len` as `data.len() * 8`. -/
def WebSocketFrame.new_bin (fin : Bool) (opcode : WebSocketOpCode)
    (data : List Nat) (mask_key : Option (List Nat)) : WebSocketFrame :=
  if mask_key ≠ none then
    { fin := fin, masked := true, opcode := opcode,
      payload_len := data.length * 8, mask_key := mask_key, data := data }
  else
    { fin := fin, masked := false, opcode := opcode,
      payload_len := data.length * 8, mask_key := mask_key, data := data }

/-- Models the opcode byte written by WebSocketFrame::encode
(src/frame.rs lines 174-182). -/
def opcodeByte : WebSocketOpCode → Nat
  | .Continuation => 0
  | .Text => 1
  | .Binary => 2
  | .Close => 8
  | .Ping => 9
  | .Pong => 10
  | .Reserved => 15

/-- Little-endian byte decomposition of a u64, models `u64::to_le_bytes`. -/
def leBytes8 (n : Nat) : List Nat :=
  [n &&& 255, (n >>> 8) &&& 255, (n >>> 16) &&& 255, (n >>> 24) &&& 255,
   (n >>> 32) &&& 255, (n >>> 40) &&& 255, (n >>> 48) &&& 255, (n >>> 56) &&& 255]

/-- Models WebSocketFrame::encode (src/frame.rs lines 164-233).  The
length match is exactly the source's: literal byte for 0..=125, the
marker 126 plus the first two little-endian length bytes for exactly
126, and the marker 127 plus all eight little-endian length bytes for
everything else. -/
def WebSocketFrame.encode (f : WebSocketFrame) : List Nat :=
  let meta := (if f.fin then 128 else 0) ||| opcodeByte f.opcode
  let lenBytes : List Nat :=
    if f.payload_len ≤ 125 then
      [if f.masked then f.payload_len ||| 128 else f.payload_len]
    else if f.payload_len = 126 then
      (if f.masked then 126 ||| 128 else 126) ::
        [(leBytes8 f.payload_len).getD 0 0, (leBytes8 f.payload_len).getD 1 0]
    else
      (if f.masked then 127 ||| 128 else 127) :: leBytes8 f.payload_len
  let maskBytes := match f.mask_key with
    | some k => k
    | none => []
  meta :: (lenBytes ++ maskBytes ++ f.data)

/-- Outcome of WebSocketFrame::parse.  The Rust function returns a bare
WebSocketFrame and aborts with a panic (via `expect`, `panic!`, or an
out-of-range `drain`) on malformed input; `panicked` models those
aborts, carrying the panic or expect message. -/
inductive ParseOutcome where
  | frame (f : WebSocketFrame)
  | panicked (msg : String)
deriving DecidableEq, Repr

/-- Models the opcode match of WebSocketFrame::parse (src/frame.rs lines
93-103); `none` corresponds to the unreachable `panic!("failed mask")`
arm. -/
def decodeOpcodeNat (n : Nat) : Option WebSocketOpCode :=
  match n with
  | 0 => some .Continuation
  | 1 => some .Text
  | 2 => some .Binary
  | 3 | 4 | 5 | 6 | 7 => some .Reserved
  | 8 => some .Close
  | 9 => some .Ping
  | 10 => some .Pong
  | 11 | 12 | 13 | 14 | 15 => some .Reserved
  | _ => none

/-- Models the payload-reading tail of WebSocketFrame::parse
(src/frame.rs lines 145-161): for a nonzero parsed length the source
allocates a buffer of `payload_len / 8` bytes and `read_exact`s into it,
panicking with the expect message "read length bytes" when fewer remain. -/
def parseData (fin masked : Bool) (opcode : WebSocketOpCode)
    (payload_len : Nat) (mask_key : Option (List Nat)) (rest : List Nat) :
    ParseOutcome :=
  if payload_len = 0 then
    .frame { fin := fin, masked := masked, opcode := opcode,
             payload_len := payload_len, mask_key := mask_key, data := [] }
  else
    let n := payload_len / 8
    if n ≤ rest.length then
      .frame { fin := fin, masked := masked, opcode := opcode,
               payload_len := payload_len, mask_key := mask_key,
               data := rest.take n }
    else .panicked "read length bytes"

/-- Models the mask-key extraction of WebSocketFrame::parse
(src/frame.rs lines 134-143): `drain(0..4)` panics when fewer than four
bytes remain, otherwise the four bytes become the key. -/
def parseMask (fin masked : Bool) (opcode : WebSocketOpCode)
    (payload_len : Nat) (rest : List Nat) : ParseOutcome :=
  if masked then
    if 4 ≤ rest.length then
      parseData fin masked opcode payload_len (some (rest.take 4)) (rest.drop 4)
    else .panicked "drain range out of bounds"
  else parseData fin masked opcode payload_len none rest

/-- Models the payload-length match of WebSocketFrame::parse
(src/frame.rs lines 114-132): lengths 126 and 127 pop two or eight
further bytes and ADD them together (the source never shifts), panicking
with "length bytes" when they are missing. -/
def parseLen (fin masked : Bool) (opcode : WebSocketOpCode)
    (shifted_len : Nat) (rest : List Nat) : ParseOutcome :=
  if shifted_len ≤ 125 then parseMask fin masked opcode shifted_len rest
  else if shifted_len = 126 then
    match rest with
    | b0 :: b1 :: r => parseMask fin masked opcode (b0 + b1) r
    | _ => .panicked "length bytes"
  else if shifted_len = 127 then
    match rest with
    | b0 :: b1 :: b2 :: b3 :: b4 :: b5 :: b6 :: b7 :: r =>
        parseMask fin masked opcode (b0 + b1 + b2 + b3 + b4 + b5 + b6 + b7) r
    | _ => .panicked "length bytes"
  else .panicked "explicit panic"

/-- Models the mask flag and initial length byte of WebSocketFrame::parse
(src/frame.rs lines 105-114). -/
def parseMaskFlag (fin : Bool) (opcode : WebSocketOpCode) (rest : List Nat) :
    ParseOutcome :=
  match rest with
  | [] => .panicked "frame contained mask flag and initial length"
  | mal :: r =>
    match mal >>> 7 with
    | 0 => parseLen fin false opcode (mal &&& 127) r
    | 1 => parseLen fin true opcode (mal &&& 127) r
    | _ => .panicked "failed bitshift"

/-- Models the opcode nibble handling of WebSocketFrame::parse
(src/frame.rs lines 93-103). -/
def parseOp (fin : Bool) (meta : Nat) (rest : List Nat) : ParseOutcome :=
  match decodeOpcodeNat (meta &&& 15) with
  | some op => parseMaskFlag fin op rest
  | none => .panicked "failed mask"

/-- Models WebSocketFrame::parse (src/frame.rs lines 80-162), staged
through the helpers above in source order. -/
def WebSocketFrame.parse (raw : List Nat) : ParseOutcome :=
  match raw with
  | [] => .panicked "frame contained fin and opcode"
  | meta :: rest =>
    match meta >>> 7 with
    | 0 => parseOp false meta rest
    | 1 => parseOp true meta rest
    | _ => .panicked "failed bitshift"

/-! ### SHA-1 and base64

The source calls `Sha1::digest` (RustCrypto sha1 crate) and
`Base64::encode_string` (base64ct crate).  These external primitives are
embedded below following their standard definitions (RFC 3174 SHA-1 and
RFC 4648 base64 with padding); 32-bit machine arithmetic is `Nat`
arithmetic reduced modulo 2^32. -/

/-- Truncation to a 32-bit word. -/
def w32 (n : Nat) : Nat := n % 4294967296

/-- Left rotation of a 32-bit word by b bits. -/
def rotl32 (b n : Nat) : Nat := (w32 (n <<< b)) ||| (w32 n >>> (32 - b))

/-- Bitwise complement of a 32-bit word. -/
def not32 (n : Nat) : Nat := n ^^^ 4294967295

/-- Round function of SHA-1 (RFC 3174 section 5). -/
def sha1F (i b c d : Nat) : Nat :=
  if i < 20 then (b &&& c) ||| (not32 b &&& d)
  else if i < 40 then b ^^^ c ^^^ d
  else if i < 60 then (b &&& c) ||| (b &&& d) ||| (c &&& d)
  else b ^^^ c ^^^ d

/-- Round constants of SHA-1 (RFC 3174 section 5). -/
def sha1K (i : Nat) : Nat :=
  if i < 20 then 0x5A827999
  else if i < 40 then 0x6ED9EBA1
  else if i < 60 then 0x8F1BBCDC
  else 0xCA62C1D6

/-- The 80 SHA-1 rounds over the expanded schedule. -/
def sha1Rounds : Nat → List Nat → Nat × Nat × Nat × Nat × Nat → Nat × Nat × Nat × Nat × Nat
  | _, [], st => st
  | i, w :: ws, (a, b, c, d, e) =>
    let t := w32 (rotl32 5 a + sha1F i b c d + e + sha1K i + w)
    sha1Rounds (i + 1) ws (t, a, rotl32 30 b, c, d)

/-- Expands the 16 block words to the 80-word schedule; the accumulator
is kept most-recent-first so w[t-3], w[t-8], w[t-14], w[t-16] are at
positions 2, 7, 13, 15. -/
def sha1Expand : Nat → List Nat → List Nat
  | 0, acc => acc.reverse
  | n + 1, acc =>
    let wnew := rotl32 1 (acc.getD 2 0 ^^^ acc.getD 7 0 ^^^ acc.getD 13 0 ^^^ acc.getD 15 0)
    sha1Expand n (wnew :: acc)

/-- Packs bytes into big-endian 32-bit words. -/
def bytesToWordsBE : List Nat → List Nat
  | b0 :: b1 :: b2 :: b3 :: rest =>
    (b0 * 16777216 + b1 * 65536 + b2 * 256 + b3) :: bytesToWordsBE rest
  | _ => []

/-- Iterates the SHA-1 compression over the given number of 64-byte blocks. -/
def sha1Blocks : Nat → List Nat → Nat × Nat × Nat × Nat × Nat → Nat × Nat × Nat × Nat × Nat
  | 0, _, h => h
  | n + 1, bytes, (h0, h1, h2, h3, h4) =>
    let ws := sha1Expand 64 (bytesToWordsBE (bytes.take 64)).reverse
    let (a, b, c, d, e) := sha1Rounds 0 ws (h0, h1, h2, h3, h4)
    sha1Blocks n (bytes.drop 64)
      (w32 (h0 + a), w32 (h1 + b), w32 (h2 + c), w32 (h3 + d), w32 (h4 + e))

/-- Big-endian bytes of a 64-bit word. -/
def beBytes8 (n : Nat) : List Nat :=
  [(n >>> 56) &&& 255, (n >>> 48) &&& 255, (n >>> 40) &&& 255, (n >>> 32) &&& 255,
   (n >>> 24) &&& 255, (n >>> 16) &&& 255, (n >>> 8) &&& 255, n &&& 255]

/-- Big-endian bytes of a 32-bit word. -/
def beBytes4 (n : Nat) : List Nat :=
  [(n >>> 24) &&& 255, (n >>> 16) &&& 255, (n >>> 8) &&& 255, n &&& 255]

/-- Merkle-Damgard padding of SHA-1: a 0x80 byte, zeros to 56 mod 64,
then the bit length as a big-endian 64-bit value. -/
def sha1Pad (msg : List Nat) : List Nat :=
  msg ++ 128 :: List.replicate ((55 + 64 - msg.length % 64) % 64) 0 ++ beBytes8 (msg.length * 8)

/-- SHA-1 of a byte sequence (RFC 3174), yielding the 20 digest bytes. -/
def sha1 (msg : List Nat) : List Nat :=
  let padded := sha1Pad msg
  let (h0, h1, h2, h3, h4) :=
    sha1Blocks (padded.length / 64) padded
      (0x67452301, 0xEFCDAB89, 0x98BADCFE, 0x10325476, 0xC3D2E1F0)
  beBytes4 h0 ++ beBytes4 h1 ++ beBytes4 h2 ++ beBytes4 h3 ++ beBytes4 h4

/-- Character of the standard base64 alphabet (RFC 4648). -/
def b64Char (n : Nat) : Char :=
  "ABCDEFGHIJKLMNOPQRSTUVWXYZabcdefghijklmnopqrstuvwxyz0123456789+/".data.getD n 'A'

/-- Standard padded base64 encoding of a byte sequence (RFC 4648),
as produced by `Base64::encode_string`. -/
def base64Encode : List Nat → List Char
  | [] => []
  | [b0] =>
    [b64Char (b0 >>> 2), b64Char ((b0 &&& 3) <<< 4), '=', '=']
  | [b0, b1] =>
    [b64Char (b0 >>> 2), b64Char (((b0 &&& 3) <<< 4) ||| (b1 >>> 4)),
     b64Char ((b1 &&& 15) <<< 2), '=']
  | b0 :: b1 :: b2 :: rest =>
    b64Char (b0 >>> 2) :: b64Char (((b0 &&& 3) <<< 4) ||| (b1 >>> 4)) ::
    b64Char (((b1 &&& 15) <<< 2) ||| (b2 >>> 6)) :: b64Char (b2 &&& 63) ::
    base64Encode rest

/-- UTF-8 bytes of one character, modelling Rust str::as_bytes. -/
def utf8Char (c : Char) : List Nat :=
  let n := c.toNat
  if n < 128 then [n]
  else if n < 2048 then [192 ||| (n >>> 6), 128 ||| (n &&& 63)]
  else if n < 65536 then
    [224 ||| (n >>> 12), 128 ||| ((n >>> 6) &&& 63), 128 ||| (n &&& 63)]
  else
    [240 ||| (n >>> 18), 128 ||| ((n >>> 12) &&& 63),
     128 ||| ((n >>> 6) &&& 63), 128 ||| (n &&& 63)]

/-- UTF-8 bytes of a character list, modelling Rust str::as_bytes. -/
def utf8Bytes (l : List Char) : List Nat := (l.map utf8Char).foldr (· ++ ·) []

/-- The magic GUID appended to the key before hashing
(src/server.rs line 220, src/client.rs line 138). -/
def magicGuid : String := "258EAFA5-E914-47DA-95CA-C5AB0DC85B11"

/-- Models the accept-key derivation performed at the end of
ServerHandle::validate_handshake (src/server.rs lines 219-226):
base64 of the SHA-1 of the key followed by the magic GUID. -/
def serverAcceptKey (key : String) : String :=
  String.mk (base64Encode (sha1 (utf8Bytes (key.data ++ magicGuid.data))))

/-- Models the expected-key computation of
WebSocketClient::validate_server_handshake (src/client.rs lines 138-139):
base64 of the SHA-1 of the key followed by the magic GUID. -/
def clientExpectedKey (key : String) : String :=
  String.mk (base64Encode (sha1 (utf8Bytes (key.data ++ magicGuid.data))))

/-! ### String primitives

Models of the Rust std string operations used by the handshake code.
Rust `char::is_whitespace` and `char::to_lowercase` are Unicode-aware;
they are modelled by `Char.isWhitespace` and `Char.toLower`, which agree
with them on the ASCII text the protocol exchanges. -/

/-- Models str::split(sep): the pieces between separator occurrences,
empty pieces included. -/
def splitChar (sep : Char) : List Char → List (List Char)
  | [] => [[]]
  | c :: rest =>
    match splitChar sep rest with
    | [] => if c = sep then [[], []] else [[c]]
    | h :: t => if c = sep then [] :: h :: t else (c :: h) :: t

/-- Pieces between runs of characters satisfying p, empty pieces included. -/
def splitPred (p : Char → Bool) : List Char → List (List Char)
  | [] => [[]]
  | c :: rest =>
    match splitPred p rest with
    | [] => if p c then [[], []] else [[c]]
    | h :: t => if p c then [] :: h :: t else (c :: h) :: t

/-- Models str::split_whitespace: maximal whitespace-free words. -/
def splitWs (l : List Char) : List (List Char) :=
  (splitPred Char.isWhitespace l).filter (fun w => ¬w.isEmpty)

/-- Models str::split_once(sep): the text before and after the first
occurrence of sep, or none when sep does not occur. -/
def splitOnce (sep : Char) : List Char → Option (List Char × List Char)
  | [] => none
  | c :: rest =>
    if c = sep then some ([], rest)
    else match splitOnce sep rest with
      | none => none
      | some (a, b) => some (c :: a, b)

/-- Models str::trim: drops leading and trailing whitespace. -/
def trimList (l : List Char) : List Char :=
  ((l.dropWhile Char.isWhitespace).reverse.dropWhile Char.isWhitespace).reverse

/-- Models str::to_lowercase on a character list. -/
def lowerList (l : List Char) : List Char := l.map Char.toLower

/-! ### Server handshake validation (src/server.rs) -/

/-- Models the header collection of ServerHandle::validate_handshake
(src/server.rs lines 168-171): each remaining line is split at its first
colon, the name trimmed and lowercased, the value trimmed. -/
def headerPairs (lines : List (List Char)) : List (List Char × List Char) :=
  lines.filterMap (fun line =>
    (splitOnce ':' line).map (fun p => (lowerList (trimList p.1), trimList p.2)))

/-- Header lookup modelling the Rust HashMap built in src/server.rs lines
168-171 and src/client.rs lines 109-112: when a name repeats, the last
occurrence wins. -/
def getHeader (hs : List (List Char × List Char)) (name : List Char) :
    Option (List Char) :=
  (hs.reverse.find? (fun p => p.1 == name)).map Prod.snd

/-- Models the request-line validation of ServerHandle::validate_handshake
(src/server.rs lines 131-159): method GET, a URI token, and an HTTP
version of 1.1, 2 or 3; returns the failure message if any. -/
def checkRequestLine (rc : List (List Char)) : Option String :=
  match rc.get? 0 with
  | some w =>
    if w = "GET".data then
      match rc.get? 1 with
      | some _ =>
        match rc.get? 2 with
        | some http =>
          match splitOnce '/' http with
          | some (p, v) =>
            if p = "HTTP".data ∧ (v = "1.1".data ∨ v = "2".data ∨ v = "3".data) then
              none
            else some "Handshake is using an invalid HTTP version, must be HTTP/1.1 or higher"
          | none => some "Handshake is using an invalid HTTP version, must be HTTP/1.1 or higher"
        | none => some "Handshake is using an invalid HTTP version, must be HTTP/1.1 or higher"
      | none => some "Handshake contains invalid URI resource"
    else some "Handshake is not a GET Request"
  | none => some "Handshake is not a GET Request"

/-- Models header validations 2, 3, 4 and 6 of
ServerHandle::validate_handshake (src/server.rs lines 173-205): Host
equals the hostname, Upgrade is websocket (case-insensitively),
Connection is upgrade (case-insensitively), Sec-WebSocket-Version is
exactly 13, in that order; returns the first failure message if any. -/
def checkHeaders (headers : List (List Char × List Char)) (hostname : String) :
    Option String :=
  match getHeader headers "host".data with
  | some given_host =>
    if trimList given_host = hostname.data then
      match getHeader headers "upgrade".data with
      | some ug =>
        if lowerList ug = "websocket".data then
          match getHeader headers "connection".data with
          | some conn =>
            if lowerList conn = "upgrade".data then
              match getHeader headers "sec-websocket-version".data with
              | some v =>
                if v = "13".data then none
                else some "Requested Sec-WebSocket-Version was not '13'"
              | none => some "Handshake missing Sec-WebSocket-Version header"
            else some "Requested Connection was not 'upgrade'"
          | none => some "Handshake missing Connection header"
        else some "Requested Upgrade was not 'websocket'"
      | none => some "Handshake missing Upgrade header"
    else some "Invalid hostname"
  | none => some "Handshake missing Host header"

/-- Models validation 5 of ServerHandle::validate_handshake
(src/server.rs lines 207-226): the trimmed Sec-WebSocket-Key must count
exactly 24 characters, and the accept key is derived from it. -/
def checkKey (headers : List (List Char × List Char)) : Except String String :=
  match getHeader headers "sec-websocket-key".data with
  | none => .error "Handshake missing Sec-WebSocket-Key header"
  | some h =>
    let key := trimList h
    if key.length ≠ 24 then .error "Invalid Sec-WebSocket-Key"
    else .ok (serverAcceptKey (String.mk key))

/-- Models ServerHandle::validate_handshake (src/server.rs lines
115-227): trims the request, splits it into lines, validates the request
line, collects the headers and validates them, then checks the key and
derives the accept key. -/
def validate_handshake (client_handshake hostname : String) :
    Except String String :=
  match splitChar '\n' (trimList client_handshake.data) with
  | [] => .error "Handshake is not a valid HTTP request"
  | http_request :: headerLines =>
    match checkRequestLine (splitWs http_request) with
    | some e => .error e
    | none =>
      let headers := headerPairs headerLines
      match checkHeaders headers hostname with
      | some e => .error e
      | none => checkKey headers

/-! ### Client handshake validation (src/client.rs) -/

/-- Models validation 1 of WebSocketClient::validate_server_handshake
(src/client.rs lines 101-107): the first status-line token is discarded
and the second must be exactly 101; any other token is named in the
failure message. -/
def statusCheck (rc : List (List Char)) : Option String :=
  match rc.get? 1 with
  | some code =>
    if code = "101".data then none
    else some ("Invalid response code " ++ String.mk code)
  | none => some "Missing response code"

/-- Models validations 2, 3 and 4 of
WebSocketClient::validate_server_handshake (src/client.rs lines
114-145): Upgrade and Connection headers as on the server, then the
Sec-WebSocket-Accept value must equal the derivation from the key the
client sent. -/
def clientHeaderChecks (headers : List (List Char × List Char)) (key : String) :
    Except String Unit :=
  match getHeader headers "upgrade".data with
  | some ug =>
    if lowerList ug = "websocket".data then
      match getHeader headers "connection".data with
      | some conn =>
        if lowerList conn = "upgrade".data then
          match getHeader headers "sec-websocket-accept".data with
          | some h =>
            let accept_key := trimList h
            if accept_key = (clientExpectedKey key).data then .ok ()
            else .error "Server key invalid"
          | none => .error "Handshake missing Sec-WebSocket-Accept header"
        else .error "Requested Connection was not 'upgrade'"
      | none => .error "Handshake missing Connection header"
    else .error "Requested Upgrade was not 'websocket'"
  | none => .error "Handshake missing Upgrade header"

/-- Models WebSocketClient::validate_server_handshake (src/client.rs
lines 82-146): trims and splits the response, checks the status code,
collects the headers and validates them against the sent key. -/
def validate_server_handshake (server_response key : String) :
    Except String Unit :=
  match splitChar '\n' (trimList server_response.data) with
  | [] => .error "Handshake is not a valid HTTP response"
  | http_response :: headerLines =>
    match statusCheck (splitWs http_response) with
    | some e => .error e
    | none => clientHeaderChecks (headerPairs headerLines) key

/-- Big-endian (network byte order) bytes of a 16-bit length, as RFC
6455 requires for the 2-byte length extension. -/
def beBytes2 (n : Nat) : List Nat := [(n >>> 8) &&& 255, n &&& 255]

/-- A well-formed handshake request around an arbitrary
Sec-WebSocket-Key value, used to exercise the key validation. -/
def keyRequest (k : String) : String :=
  "GET /ws HTTP/1.1\nHost: localhost\nUpgrade: websocket\nConnection: Upgrade\nSec-WebSocket-Key: " ++ k ++ "\nSec-WebSocket-Version: 13"

/-- The second whitespace-separated token of the first line of a
response, i.e. the status code position inspected by
WebSocketClient::validate_server_handshake. -/
def statusTokenOf (resp : String) : Option (List Char) :=
  match splitChar '\n' (trimList resp.data) with
  | [] => none
  | first :: _ => (splitWs first).get? 1

set_option maxRecDepth 40000

/-! ### Claim theorems -/

/-- C1: the spec's round-trip contract `decode(encode(f)) == f` fails on
the code.  For the valid frame built from a 32-byte payload (so
`payload_len` is 256), encode emits the eight little-endian length bytes
while parse sums the bytes it pops, reconstructing length 1 and an empty
payload: the decoded frame differs from the original. -/
theorem c1_roundtrip_fails_at_32_byte_payload :
    WebSocketFrame.parse
        (WebSocketFrame.encode
          (WebSocketFrame.new_bin true .Binary (List.replicate 32 7) none)) =
      .frame { fin := true, masked := false, opcode := .Binary,
               payload_len := 1, mask_key := none, data := [] } ∧
    WebSocketFrame.parse
        (WebSocketFrame.encode
          (WebSocketFrame.new_bin true .Binary (List.replicate 32 7) none)) ≠
      .frame (WebSocketFrame.new_bin true .Binary (List.replicate 32 7) none) := by
  constructor
  · decide
  · decide

/-- C2: masking is never applied.  Encoding the masked frame with key
[1,2,3,4] and payload "abc" writes the raw payload bytes 97,98,99 on the
wire, not the XORed bytes required by the claim; and parsing a wire
frame whose masked payload is 96,96,96 stores those bytes without XORing
them with the key. -/
theorem c2_no_xor_masking :
    WebSocketFrame.encode
        (WebSocketFrame.new_bin true .Text [97, 98, 99] (some [1, 2, 3, 4])) =
      [129, 152, 1, 2, 3, 4, 97, 98, 99] ∧
    ([97, 98, 99] : List Nat) ≠ [97 ^^^ 1, 98 ^^^ 2, 99 ^^^ 3] ∧
    WebSocketFrame.parse [129, 152, 1, 2, 3, 4, 96, 96, 96] =
      .frame { fin := true, masked := true, opcode := .Text,
               payload_len := 24, mask_key := some [1, 2, 3, 4],
               data := [96, 96, 96] } ∧
    ([96, 96, 96] : List Nat) ≠ [96 ^^^ 1, 96 ^^^ 2, 96 ^^^ 3] := by
  refine ⟨by decide, by decide, by decide, by decide⟩

/-- C3: the extension length bytes are not in network byte order.  For a
frame with payload_len 126 encode writes the little-endian pair [126, 0]
instead of the big-endian pair beBytes2 126 = [0, 126]; and parse, given
the 16-bit extension bytes [1, 2] whose network-byte-order value is 258,
reconstructs 1 + 2 = 3 instead. -/
theorem c3_length_bytes_not_network_order :
    WebSocketFrame.encode
        { fin := true, masked := false, opcode := .Binary,
          payload_len := 126, mask_key := none, data := [] } =
      [130, 126, 126, 0] ∧
    ([126, 0] : List Nat) ≠ beBytes2 126 ∧
    WebSocketFrame.parse [130, 126, 1, 2] =
      .frame { fin := true, masked := false, opcode := .Binary,
               payload_len := 3, mask_key := none, data := [] } ∧
    (3 : Nat) ≠ 1 * 256 + 2 ∧
    (WebSocketFrame.encode
        { fin := true, masked := false, opcode := .Binary,
          payload_len := 1000, mask_key := none, data := [] }).drop 2 =
      leBytes8 1000 ∧
    leBytes8 1000 ≠ beBytes8 1000 := by
  refine ⟨by decide, by decide, by decide, by decide, by decide, by decide⟩

/-- C4: payload_length counts bits, not bytes.  new_bin on a 3-byte
payload sets payload_len to 24, not 3; and parse, for a declared length
of 3, allocates 3 / 8 = 0 payload bytes instead of reading 3. -/
theorem c4_payload_len_counts_bits :
    (WebSocketFrame.new_bin true .Binary [1, 2, 3] none).payload_len = 24 ∧
    (24 : Nat) ≠ 3 ∧
    WebSocketFrame.parse [130, 3, 9, 9, 9] =
      .frame { fin := true, masked := false, opcode := .Binary,
               payload_len := 3, mask_key := none, data := [] } ∧
    ([] : List Nat).length ≠ 3 := by
  refine ⟨by decide, by decide, by decide, by decide⟩

/-- C5: parse panics on truncated input instead of returning a
recoverable error; there is no FrameError type in the source at all.
Each truncation stage ends in the corresponding panic: missing first
header byte, missing second header byte, truncated 2-byte length
extension, missing mask-key bytes, and fewer payload bytes than the
parsed length requires. -/
theorem c5_parse_panics_on_truncated_input :
    WebSocketFrame.parse [] = .panicked "frame contained fin and opcode" ∧
    WebSocketFrame.parse [130] =
      .panicked "frame contained mask flag and initial length" ∧
    WebSocketFrame.parse [130, 126, 5] = .panicked "length bytes" ∧
    WebSocketFrame.parse [130, 127, 1, 2, 3] = .panicked "length bytes" ∧
    WebSocketFrame.parse [130, 254, 0, 16] =
      .panicked "drain range out of bounds" ∧
    WebSocketFrame.parse [130, 100, 1, 2] = .panicked "read length bytes" := by
  refine ⟨by decide, by decide, by decide, by decide, by decide, by decide⟩

/-- C6 counterexample: for payload length 1000, which lies in 126..65535,
encode emits the 64-bit marker 127 in the length field rather than the
16-bit marker 126 the claim requires. -/
theorem c6_counterexample_wide_encoding_at_1000 :
    (WebSocketFrame.encode
        { fin := true, masked := false, opcode := .Binary,
          payload_len := 1000, mask_key := none, data := [] }).get? 1 =
      some 127 ∧
    (126 ≤ 1000 ∧ 1000 ≤ 65535) ∧ (127 : Nat) ≠ 126 := by
  refine ⟨by decide, by decide, by decide⟩

/-- For a value below 128, setting the mask bit by bitwise or adds 128. -/
theorem lor_128_of_lt : ∀ n < 128, n ||| 128 = 128 + n := by decide

/-- C6 amended: encode picks the 7-bit literal field for payload lengths
at most 125, the 16-bit marker 126 only for payload length exactly 126,
and the 64-bit marker 127 for every other length; the corresponding
extension widths are 0, 2 and 8 bytes.  In particular lengths 127..65535
use the 64-bit form, wider than the claim's minimal encoding. -/
theorem c6_amended_length_field_choice (f : WebSocketFrame) :
    (WebSocketFrame.encode f).get? 1 =
      some ((if f.masked then 128 else 0) +
        (if f.payload_len ≤ 125 then f.payload_len
         else if f.payload_len = 126 then 126 else 127)) ∧
    (WebSocketFrame.encode f).length =
      2 + (if f.payload_len ≤ 125 then 0
           else if f.payload_len = 126 then 2 else 8) +
        (match f.mask_key with | some k => k.length | none => 0) +
        f.data.length := by
  obtain ⟨fin, masked, opcode, pl, mk, data⟩ := f
  simp only [WebSocketFrame.encode]
  constructor
  · by_cases h1 : pl ≤ 125
    · cases masked with
      | false => simp [h1]
      | true => simp [h1, lor_128_of_lt pl (by omega)]
    · by_cases h2 : pl = 126
      · cases masked <;> simp [h1, h2]
      · cases masked <;> simp [h1, h2, leBytes8]
  · by_cases h1 : pl ≤ 125
    · cases masked <;> cases mk <;> simp [h1] <;> ring
    · by_cases h2 : pl = 126
      · cases masked <;> cases mk <;> simp [h1, h2] <;> ring
      · cases masked <;> cases mk <;> simp [h1, h2, leBytes8] <;> ring

/-- C7: the accept-key derivation is the same pure function
base64(SHA1(key ++ magic GUID)) on server and client, and on the RFC
sample key it produces exactly the RFC sample accept key; the full
server validation of a well-formed request carrying that key returns
exactly that accept key. -/
theorem c7_accept_key_derivation :
    (∀ key : String, serverAcceptKey key = clientExpectedKey key) ∧
    serverAcceptKey "dGhlIHNhbXBsZSBub25jZQ==" = "s3pPLMBiTxaQ9kYGzzhZRbK+xOo=" ∧
    clientExpectedKey "dGhlIHNhbXBsZSBub25jZQ==" = "s3pPLMBiTxaQ9kYGzzhZRbK+xOo=" ∧
    validate_handshake
        "GET /ws HTTP/1.1\nHost: localhost\nUpgrade: websocket\nConnection: Upgrade\nSec-WebSocket-Key: dGhlIHNhbXBsZSBub25jZQ==\nOrigin: localhost\nSec-WebSocket-Protocol: rhubarb\nSec-WebSocket-Version: 13"
        "localhost" =
      .ok "s3pPLMBiTxaQ9kYGzzhZRbK+xOo=" := by
  refine ⟨fun _ => rfl, by decide, by decide, by rfl⟩

/-- C8: each listed handshake defect is rejected with the exact stated
reason, and the checks fire in the stated order: a POST request (even
one that is also defective later) fails as not a GET request; HTTP/1.0
fails the version check; a wrong Host fails as invalid hostname; then
the Upgrade, Connection, Sec-WebSocket-Version and key-length checks
each produce their distinct message, a check only being reached once all
earlier ones pass. -/
theorem c8_server_rejection_reasons :
    validate_handshake "POST /ws HTTP/1.1" "localhost" =
      .error "Handshake is not a GET Request" ∧
    validate_handshake "POST /ws HTTP/1.0\nHost: wronghost" "localhost" =
      .error "Handshake is not a GET Request" ∧
    validate_handshake "GET /ws HTTP/1.0" "localhost" =
      .error "Handshake is using an invalid HTTP version, must be HTTP/1.1 or higher" ∧
    validate_handshake "GET /ws HTTP/1.0\nHost: wronghost" "localhost" =
      .error "Handshake is using an invalid HTTP version, must be HTTP/1.1 or higher" ∧
    validate_handshake "GET /ws HTTP/1.1\nHost: wronghost\nUpgrade: nothing" "localhost" =
      .error "Invalid hostname" ∧
    validate_handshake "GET /ws HTTP/1.1\nHost: localhost\nUpgrade: Not Websocket\nConnection: none" "localhost" =
      .error "Requested Upgrade was not 'websocket'" ∧
    validate_handshake "GET /ws HTTP/1.1\nHost: localhost\nUpgrade: Websocket\nConnection: Not Upgrade\nSec-WebSocket-Version: 14" "localhost" =
      .error "Requested Connection was not 'upgrade'" ∧
    validate_handshake "GET /ws HTTP/1.1\nHost: localhost\nUpgrade: Websocket\nConnection: Upgrade\nSec-WebSocket-Version: 14\nSec-WebSocket-Key: foo" "localhost" =
      .error "Requested Sec-WebSocket-Version was not '13'" ∧
    validate_handshake "GET /ws HTTP/1.1\nHost: localhost\nUpgrade: Websocket\nConnection: Upgrade\nSec-WebSocket-Version: 13\nSec-WebSocket-Key: foo" "localhost" =
      .error "Invalid Sec-WebSocket-Key" := by
  refine ⟨by rfl, by rfl, by rfl, by rfl, by rfl, by rfl, by rfl, by rfl, by rfl⟩

/-- C9: the client handshake validation accepts only responses whose
status-code token is exactly 101; any other token is named in the
failure message (even a non-numeric one); a 101 response lacking
Sec-WebSocket-Accept, or carrying one different from the derivation for
the key the client sent, is rejected with a descriptive error, while the
matching derivation is accepted. -/
theorem c9_client_response_validation :
    (∀ (resp key : String), validate_server_handshake resp key = .ok () →
      statusTokenOf resp = some "101".data) ∧
    validate_server_handshake "HTTP/1.1 400 Bad Request" "" =
      .error "Invalid response code 400" ∧
    validate_server_handshake "HTTP/1.1 abc Nonsense" "" =
      .error "Invalid response code abc" ∧
    validate_server_handshake
        "HTTP/1.1 101 Switching Protocols\nUpgrade: websocket\nConnection: upgrade\n"
        "somekey" =
      .error "Handshake missing Sec-WebSocket-Accept header" ∧
    validate_server_handshake
        "HTTP/1.1 101 Switching Protocols\nUpgrade: websocket\nConnection: upgrade\nSec-WebSocket-Accept: invalid-key"
        "somekey" =
      .error "Server key invalid" ∧
    validate_server_handshake
        "HTTP/1.1 101 Switching Protocols\nUpgrade: websocket\nConnection: Upgrade\nSec-WebSocket-Accept: s3pPLMBiTxaQ9kYGzzhZRbK+xOo="
        "dGhlIHNhbXBsZSBub25jZQ==" = .ok () := by
  refine ⟨?_, by rfl, by rfl, by rfl, by rfl, by rfl⟩
  intro resp key h
  unfold validate_server_handshake at h
  unfold statusTokenOf
  split at h
  next => simp at h
  next http_response headerLines hsp =>
    split at h
    next e hst => simp at h
    next hst =>
      unfold statusCheck at hst
      cases hg : (splitWs http_response).get? 1 with
      | none => rw [hg] at hst; simp at hst
      | some code =>
        rw [hg] at hst
        have hred : (if code = "101".data then (none : Option String)
            else some ("Invalid response code " ++ String.mk code)) = none := hst
        by_cases hc : code = "101".data
        · rw [hc]
        · rw [if_neg hc] at hred; exact absurd hred (by simp)

/-- Witness for C9: the sample success response indeed carries the
status token 101, by the universal part of the claim theorem. -/
theorem c9_client_response_validation_witness :
    statusTokenOf
        "HTTP/1.1 101 Switching Protocols\nUpgrade: websocket\nConnection: Upgrade\nSec-WebSocket-Accept: s3pPLMBiTxaQ9kYGzzhZRbK+xOo=" =
      some "101".data :=
  c9_client_response_validation.1 _ "dGhlIHNhbXBsZSBub25jZQ==" (by rfl)

/-- splitChar always yields at least one piece. -/
theorem splitChar_ne_nil (sep : Char) (l : List Char) : splitChar sep l ≠ [] := by
  induction l with
  | nil => simp [splitChar]
  | cons c rest ih =>
    simp only [splitChar]
    split <;> split <;> simp

/-- Splitting at a separator that first occurs after the prefix a yields
a as the first piece. -/
theorem splitChar_sep_append (sep : Char) (a b : List Char) (h : sep ∉ a) :
    splitChar sep (a ++ sep :: b) = a :: splitChar sep b := by
  induction a with
  | nil =>
    simp only [List.nil_append, splitChar]
    cases hs : splitChar sep b with
    | nil => exact absurd hs (splitChar_ne_nil sep b)
    | cons hd t => simp
  | cons c a' ih =>
    have hc : ¬c = sep := fun hcc => h (hcc ▸ List.mem_cons_self c a')
    have h' : sep ∉ a' := fun hm => h (List.mem_cons_of_mem _ hm)
    rw [List.cons_append]
    simp only [splitChar]
    rw [ih h']
    simp [hc]

/-- A separator-free list splits into itself alone. -/
theorem splitChar_of_not_mem (sep : Char) (l : List Char) (h : sep ∉ l) :
    splitChar sep l = [l] := by
  induction l with
  | nil => rfl
  | cons c rest ih =>
    have hc : ¬c = sep := fun hcc => h (hcc ▸ List.mem_cons_self c rest)
    have h' : sep ∉ rest := fun hm => h (List.mem_cons_of_mem _ hm)
    simp only [splitChar]
    rw [ih h']
    simp [hc]

/-- splitOnce cuts at the first separator occurrence. -/
theorem splitOnce_sep_append (sep : Char) (a b : List Char) (h : sep ∉ a) :
    splitOnce sep (a ++ sep :: b) = some (a, b) := by
  induction a with
  | nil => simp [splitOnce]
  | cons c a' ih =>
    have hc : ¬c = sep := fun hcc => h (hcc ▸ List.mem_cons_self c a')
    have h' : sep ∉ a' := fun hm => h (List.mem_cons_of_mem _ hm)
    simp [splitOnce, hc, ih h']

/-- A list whose head and last characters are not whitespace is its own
trim. -/
theorem trimList_eq_self (l : List Char) (c d : Char)
    (h1 : l.head? = some c) (hc : c.isWhitespace = false)
    (h2 : l.reverse.head? = some d) (hd : d.isWhitespace = false) :
    trimList l = l := by
  unfold trimList
  have e1 : l.dropWhile Char.isWhitespace = l := by
    cases l with
    | nil => rfl
    | cons a t =>
      injection h1 with h1'
      subst h1'
      simp [List.dropWhile_cons, hc]
  rw [e1]
  have e2 : l.reverse.dropWhile Char.isWhitespace = l.reverse := by
    cases hr : l.reverse with
    | nil => rfl
    | cons a t =>
      rw [hr] at h2
      injection h2 with h2'
      subst h2'
      simp [List.dropWhile_cons, hd]
  rw [e2, List.reverse_reverse]

/-- Trimming discards a leading space. -/
theorem trimList_cons_space (l : List Char) :
    trimList (' ' :: l) = trimList l := by
  unfold trimList
  simp [List.dropWhile_cons]

/-- C10: for any newline-free, already-trimmed Sec-WebSocket-Key value
inserted into a request passing all earlier checks, the server accepts
exactly when the key counts 24 characters, hashing it into the accept
key with no base64 or ASCII validation whatsoever. -/
theorem c10_key_check_counts_24_chars_only (k : String)
    (hnl : '\n' ∉ k.data) (htrim : trimList k.data = k.data) :
    validate_handshake (keyRequest k) "localhost" =
      if k.data.length = 24 then .ok (serverAcceptKey k)
      else .error "Invalid Sec-WebSocket-Key" := by
  have hdata : (keyRequest k).data =
      "GET /ws HTTP/1.1".data ++ '\n' ::
        ("Host: localhost".data ++ '\n' ::
          ("Upgrade: websocket".data ++ '\n' ::
            ("Connection: Upgrade".data ++ '\n' ::
              (("Sec-WebSocket-Key: ".data ++ k.data) ++ '\n' ::
                "Sec-WebSocket-Version: 13".data)))) := by
    show ((("GET /ws HTTP/1.1\nHost: localhost\nUpgrade: websocket\nConnection: Upgrade\nSec-WebSocket-Key: " ++ k) ++ "\nSec-WebSocket-Version: 13")).data = _
    rw [String.data_append, String.data_append]
    rw [show ("GET /ws HTTP/1.1\nHost: localhost\nUpgrade: websocket\nConnection: Upgrade\nSec-WebSocket-Key: ").data =
      "GET /ws HTTP/1.1".data ++ '\n' ::
        ("Host: localhost".data ++ '\n' ::
          ("Upgrade: websocket".data ++ '\n' ::
            ("Connection: Upgrade".data ++ '\n' :: "Sec-WebSocket-Key: ".data))) from by decide]
    rw [show ("\nSec-WebSocket-Version: 13").data =
      '\n' :: "Sec-WebSocket-Version: 13".data from by decide]
    simp [List.append_assoc]
  have hrev : (keyRequest k).data.reverse.head? = some '3' := by
    rw [hdata]
    simp only [List.reverse_append, List.reverse_cons, List.reverse_nil,
      List.nil_append, List.append_assoc]
    rw [List.head?_append_of_ne_nil _ (by decide)]
    decide
  have htrimid : trimList (keyRequest k).data = (keyRequest k).data := by
    refine trimList_eq_self _ 'G' '3' ?_ (by decide) hrev (by decide)
    rw [hdata]
    rfl
  have hsplit : splitChar '\n' (trimList (keyRequest k).data) =
      ["GET /ws HTTP/1.1".data, "Host: localhost".data,
       "Upgrade: websocket".data, "Connection: Upgrade".data,
       "Sec-WebSocket-Key: ".data ++ k.data,
       "Sec-WebSocket-Version: 13".data] := by
    rw [htrimid, hdata]
    rw [splitChar_sep_append _ _ _ (by decide)]
    rw [splitChar_sep_append _ _ _ (by decide)]
    rw [splitChar_sep_append _ _ _ (by decide)]
    rw [splitChar_sep_append _ _ _ (by decide)]
    rw [splitChar_sep_append _ _ _ (fun hm => by
      rcases List.mem_append.1 hm with hin | hin
      · exact absurd hin (by decide)
      · exact hnl hin)]
    rw [splitChar_of_not_mem _ _ (by decide)]
  have hpairs : headerPairs
      ["Host: localhost".data, "Upgrade: websocket".data,
       "Connection: Upgrade".data, "Sec-WebSocket-Key: ".data ++ k.data,
       "Sec-WebSocket-Version: 13".data] =
      [("host".data, "localhost".data), ("upgrade".data, "websocket".data),
       ("connection".data, "Upgrade".data),
       ("sec-websocket-key".data, trimList (' ' :: k.data)),
       ("sec-websocket-version".data, "13".data)] := by
    have hkeyline : splitOnce ':' ("Sec-WebSocket-Key: ".data ++ k.data) =
        some ("Sec-WebSocket-Key".data, ' ' :: k.data) := by
      rw [show "Sec-WebSocket-Key: ".data ++ k.data =
        "Sec-WebSocket-Key".data ++ ':' :: (' ' :: k.data) from by
          rw [show ("Sec-WebSocket-Key: ").data =
            "Sec-WebSocket-Key".data ++ [':', ' '] from by decide]
          simp]
      exact splitOnce_sep_append _ _ _ (by decide)
    unfold headerPairs
    simp only [List.filterMap_cons, hkeyline]
    rfl
  have hval : validate_handshake (keyRequest k) "localhost" =
      checkKey [("host".data, "localhost".data),
        ("upgrade".data, "websocket".data),
        ("connection".data, "Upgrade".data),
        ("sec-websocket-key".data, trimList (' ' :: k.data)),
        ("sec-websocket-version".data, "13".data)] := by
    unfold validate_handshake
    rw [hsplit]
    show (match checkRequestLine (splitWs "GET /ws HTTP/1.1".data) with
      | some e => Except.error e
      | none =>
        match checkHeaders (headerPairs
            ["Host: localhost".data, "Upgrade: websocket".data,
             "Connection: Upgrade".data,
             "Sec-WebSocket-Key: ".data ++ k.data,
             "Sec-WebSocket-Version: 13".data]) "localhost" with
        | some e => Except.error e
        | none => checkKey (headerPairs
            ["Host: localhost".data, "Upgrade: websocket".data,
             "Connection: Upgrade".data,
             "Sec-WebSocket-Key: ".data ++ k.data,
             "Sec-WebSocket-Version: 13".data])) = _
    rw [hpairs]
    rfl
  have hkeyval : trimList (trimList (' ' :: k.data)) = k.data := by
    rw [trimList_cons_space, htrim, htrim]
  rw [hval]
  unfold checkKey
  show (let key := trimList (trimList (' ' :: k.data))
    if key.length ≠ 24 then Except.error "Invalid Sec-WebSocket-Key"
    else Except.ok (serverAcceptKey (String.mk key))) = _
  rw [hkeyval]
  by_cases h24 : k.data.length = 24 <;> simp [h24]

/-- Witness for C10: a 24-character key that is neither valid base64 nor
ASCII is accepted and hashed into an accept key. -/
theorem c10_key_check_counts_24_chars_only_witness :
    validate_handshake (keyRequest "ééééééééééééééééééééééé!") "localhost" =
      .ok (serverAcceptKey "ééééééééééééééééééééééé!") := by
  have h := c10_key_check_counts_24_chars_only "ééééééééééééééééééééééé!" (by decide) (by decide)
  rw [if_pos (by decide)] at h
  exact h
